import Mathlib

/-!
Shallow embedding of the horst3 local disk cache (Rust sources:
`src/cache.rs`, `src/s3.rs`, `src/bin/horst3_server.rs`).

The cache root directory is modelled as an association list from file
names (relative to the root) to files; a file carries its content bytes,
its access time and its modification time, both in whole seconds
(`utime::get_file_times` / `utime::set_file_times` work in seconds).
The wall clock (`get_current_timestamp_in_s`) is passed in as an explicit
`now : Nat` parameter.  Injected I/O failures that the Rust code can
encounter (a destination path that cannot be written, a failing
`aws s3 cp`, a failing `remove_file` or `rename`) are modelled as
explicit boolean parameters.
-/

namespace Horst3

/-- A regular file: content bytes, access time and modification time
(seconds since the epoch). -/
structure File where
  content : List Nat
  atime : Nat
  mtime : Nat
deriving DecidableEq, Repr

/-- The contents of the cache root directory: file names (relative to the
root) paired with the files.  The list order is the `fs::read_dir`
enumeration order. -/
abbrev DirState := List (String × File)

/-- Error kinds of `cache.rs` (`enum CacheError`); payloads are dropped,
only the kind matters. -/
inductive CacheError where
  | ConfigurationError
  | CopyError
  | LockError
  | MakeSpaceError
  | ScanError
  | TimestampError
  | TouchError
deriving DecidableEq, Repr

/-- `struct Configuration` from `configuration.rs`: the resolved byte
budget and the root directory path. -/
structure Configuration where
  cache_size_limit_in_bytes : Nat
  cache_path : String
deriving DecidableEq, Repr

/-- A path `root/name`: Rust's `self.root().join(name)` for a name with
no separator. -/
structure CachePath where
  root : String
  name : String
deriving DecidableEq, Repr

/-- Look a file name up in the directory (first match). -/
def lookupFile : DirState → String → Option File
  | [], _ => none
  | (n, f) :: rest, name => if n = name then some f else lookupFile rest name

/-- Write a file into the directory: replace in place when the name
exists, append otherwise. -/
def setFile : DirState → String → File → DirState
  | [], name, f => [(name, f)]
  | (n, g) :: rest, name, f =>
    if n = name then (n, f) :: rest else (n, g) :: setFile rest name f

/-- `fs::remove_file`: drop the entry with the given name. -/
def removeFile : DirState → String → DirState
  | [], _ => []
  | (n, f) :: rest, name =>
    if n = name then removeFile rest name else (n, f) :: removeFile rest name

/-- `Cache::path`: `self.root().join(md5sum)` (`cache.rs` line 58).  A pure
function of the root and the key, no existence check. -/
def path (conf : Configuration) (md5sum : String) : CachePath :=
  ⟨conf.cache_path, md5sum⟩

/-- `Cache::temporary_path`: `self.root().join(format!("{}.tmp", md5sum))`
(`cache.rs` line 62).  A pure function of the root and the key. -/
def temporary_path (conf : Configuration) (md5sum : String) : CachePath :=
  ⟨conf.cache_path, md5sum ++ ".tmp"⟩

/-- `Cache::contains`: `self.path(md5sum).exists()` (`cache.rs` line 67). -/
def contains (fs : DirState) (md5sum : String) : Bool :=
  (lookupFile fs md5sum).isSome

/-- `set_file_atime` (`cache.rs` line 33): read `(atime, mtime)` with
`utime::get_file_times` (fails with `TouchError` when the file is
missing), then write `(atime', mtime)` back with `utime::set_file_times`,
leaving `mtime` unchanged. -/
def set_file_atime (fs : DirState) (name : String) (atime : Nat) :
    Except CacheError DirState :=
  match lookupFile fs name with
  | none => .error .TouchError
  | some f => .ok (setFile fs name ⟨f.content, atime, f.mtime⟩)

/-- `Cache::touch` (`cache.rs` line 71): set the entry's atime to the
current wall-clock seconds `now`. -/
def touch (fs : DirState) (md5sum : String) (now : Nat) :
    Except CacheError DirState :=
  set_file_atime fs md5sum now

/-- `Cache::copy` (`cache.rs` line 77): touch first, then
`fs::copy(src, dst)`.  Returns the operation result (the bytes written to
the destination on success) together with the directory state afterwards.
`dstWritable` injects a failure of the byte-copy step (`CopyError`). -/
def copy (fs : DirState) (md5sum : String) (now : Nat) (dstWritable : Bool) :
    Except CacheError (List Nat) × DirState :=
  match touch fs md5sum now with
  | .error e => (.error e, fs)
  | .ok fs1 =>
    match lookupFile fs1 md5sum with
    | none => (.error .CopyError, fs1)
    | some f =>
      if dstWritable then (.ok f.content, fs1) else (.error .CopyError, fs1)

/-- Insertion into `BTreeMap<u64, PathBuf>`, the map kept in ascending key
order; inserting an existing key replaces the stored value. -/
def btreeInsert (k : Nat) (v : String) :
    List (Nat × String) → List (Nat × String)
  | [] => [(k, v)]
  | (k2, v2) :: rest =>
    if k < k2 then (k, v) :: (k2, v2) :: rest
    else if k = k2 then (k, v) :: rest
    else (k2, v2) :: btreeInsert k v rest

/-- `Cache::get_least_recently_used` (`cache.rs` line 88): scan the root
directory, skip the `lock` marker, and insert each entry into a
`BTreeMap` keyed by its atime alone.  The returned list is the map's
ascending iteration order. -/
def get_least_recently_used (fs : DirState) : List (Nat × String) :=
  fs.foldl
    (fun m e => if e.1 = "lock" then m else btreeInsert e.2.atime e.1 m) []

/-- The eviction sweep inside `Cache::make_space` (`cache.rs` lines
113-125): iterate the map oldest-first; for each entry read its size
(`MakeSpaceError` when the file has vanished), delete it, accumulate the
freed bytes, and return `true` as soon as the accumulated bytes reach the
requirement. -/
def sweep : DirState → List (Nat × String) → Nat → Nat →
    Except CacheError (Bool × DirState)
  | fs, [], _, _ => .ok (false, fs)
  | fs, (_, name) :: rest, numBytes, acc =>
    match lookupFile fs name with
    | none => .error .MakeSpaceError
    | some f =>
      let fs1 := removeFile fs name
      let acc1 := acc + f.content.length
      if numBytes ≤ acc1 then .ok (true, fs1)
      else sweep fs1 rest numBytes acc1

/-- `Cache::make_space` (`cache.rs` line 105): refuse immediately when the
request exceeds the budget, otherwise sweep the least-recently-used
enumeration. -/
def make_space (conf : Configuration) (fs : DirState) (numBytes : Nat) :
    Except CacheError (Bool × DirState) :=
  if conf.cache_size_limit_in_bytes < numBytes then .ok (false, fs)
  else sweep fs (get_least_recently_used fs) numBytes 0

/-- The lock marker created by `Lockfile::create(root.join("lock"))`: an
empty file. -/
def lockMarker (now : Nat) : File :=
  ⟨[], now, now⟩

/-- `Cache::open_with_configuration` (`cache.rs` line 48):
`Lockfile::create` atomically creates `root/lock` and fails with
`LockError` when the marker already exists. -/
def open_with_configuration (conf : Configuration) (fs : DirState)
    (now : Nat) : Except CacheError DirState :=
  match conf with
  | _ =>
    if (lookupFile fs "lock").isSome then .error .LockError
    else .ok (setFile fs "lock" (lockMarker now))

/-- Error kinds of `s3.rs` (`enum S3Error`); payloads are dropped. -/
inductive S3Error where
  | CacheError (e : CacheError)
  | CommandFailed
  | IoError
  | JsonError
  | MoveError
  | NonUtf8Path
deriving DecidableEq, Repr

/-- The relevant part of `struct HeadObject` (`s3.rs`): the object's byte
length and its optional md5sum metadata key. -/
structure HeadObject where
  content_length : Nat
  md5sum : Option String
deriving DecidableEq, Repr

/-- A remote S3 object as the cache engine sees it: its head-object
metadata and its body bytes. -/
structure Remote where
  head : HeadObject
  body : List Nat
deriving DecidableEq, Repr

/-- Injected failures for the admission path of `S3Url::download`:
`fetchToTmpFails` makes the `download_direct` into the temporary path
fail (leaving a partial file there), `removeTmpFails` makes the
best-effort `fs::remove_file` of that partial file fail, and
`renameFails` makes the final `fs::rename` fail. -/
structure Plan where
  fetchToTmpFails : Bool
  removeTmpFails : Bool
  renameFails : Bool
deriving DecidableEq, Repr

/-- The observable outcome of `S3Url::download`: the returned result, the
cache root directory afterwards, and the bytes written to the caller's
destination path (`none` when the destination was not written). -/
structure DownloadOutcome where
  result : Except S3Error Unit
  fs : DirState
  dest : Option (List Nat)
deriving Repr

/-- `S3Url::download` (`s3.rs` lines 80-119).  `head_object` is assumed to
succeed and is given by `remote.head`; `download_direct` to the caller's
destination is assumed to succeed (its failures are not at issue in any
claim); the admission-path failures are injected through `plan`.  A file
freshly written by `aws s3 cp` gets both timestamps `now`; a failed
`download_direct` into the temporary path leaves a partial (empty)
file there. -/
def download (remote : Remote) (conf : Configuration) (fs : DirState)
    (now : Nat) (plan : Plan) : DownloadOutcome :=
  match remote.head.md5sum with
  | none => ⟨.ok (), fs, some remote.body⟩
  | some md5 =>
    match open_with_configuration conf fs now with
    | .error e => ⟨.error (.CacheError e), fs, none⟩
    | .ok fs1 =>
      if contains fs1 md5 then
        match copy fs1 md5 now true with
        | (.ok bytes, fs2) => ⟨.ok (), fs2, some bytes⟩
        | (.error e, fs2) => ⟨.error (.CacheError e), fs2, none⟩
      else
        match make_space conf fs1 remote.head.content_length with
        | .error e => ⟨.error (.CacheError e), fs1, none⟩
        | .ok (true, fs2) =>
          if plan.fetchToTmpFails then
            let fs3 := setFile fs2 (md5 ++ ".tmp") ⟨[], now, now⟩
            let fs4 :=
              if plan.removeTmpFails then fs3
              else removeFile fs3 (md5 ++ ".tmp")
            ⟨.error .CommandFailed, fs4, none⟩
          else
            let fs3 := setFile fs2 (md5 ++ ".tmp") ⟨remote.body, now, now⟩
            if plan.renameFails then ⟨.error .MoveError, fs3, none⟩
            else
              ⟨.ok (),
                setFile (removeFile fs3 (md5 ++ ".tmp")) md5
                  ⟨remote.body, now, now⟩,
                none⟩
        | .ok (false, fs2) => ⟨.ok (), fs2, some remote.body⟩

/-- `is_valid_md5sum` (`horst3_server.rs` line 19): exactly 32 ASCII hex
digits. -/
def is_ascii_hexdigit (c : Char) : Bool :=
  (decide ('0' ≤ c) && decide (c ≤ '9'))
    || (decide ('a' ≤ c) && decide (c ≤ 'f'))
    || (decide ('A' ≤ c) && decide (c ≤ 'F'))

/-- `is_valid_md5sum` (`horst3_server.rs` line 19). -/
def is_valid_md5sum (s : String) : Bool :=
  s.length == 32 && s.data.all is_ascii_hexdigit

/-! ## Helper lemmas -/

theorem lookupFile_setFile (fs : DirState) (name x : String) (f : File) :
    lookupFile (setFile fs name f) x =
      if x = name then some f else lookupFile fs x := by
  induction fs with
  | nil =>
    simp only [setFile, lookupFile]
    by_cases h : x = name
    · simp [h]
    · have h2 : ¬name = x := fun hh => h hh.symm
      simp [h, h2]
  | cons e rest ih =>
    obtain ⟨n, g⟩ := e
    simp only [setFile]
    by_cases hn : n = name
    · rw [if_pos hn]
      simp only [lookupFile]
      by_cases hx : n = x
      · have hxname : x = name := by rw [← hx]; exact hn
        simp [hx, hxname]
      · have hxname : ¬x = name := by rw [← hn]; intro hh; exact hx hh.symm
        simp [hx, hxname]
    · rw [if_neg hn]
      simp only [lookupFile]
      by_cases hx : n = x
      · have hxname : ¬x = name := by intro hh; apply hn; rw [hx, hh]
        simp [hx, hxname]
      · simp [hx, ih]

theorem lookupFile_removeFile (fs : DirState) (name x : String) :
    lookupFile (removeFile fs name) x =
      if x = name then none else lookupFile fs x := by
  induction fs with
  | nil => simp [removeFile, lookupFile]
  | cons e rest ih =>
    obtain ⟨n, g⟩ := e
    simp only [removeFile]
    by_cases hn : n = name
    · rw [if_pos hn]
      simp only [lookupFile]
      by_cases hx : n = x
      · have hxname : x = name := by rw [← hx]; exact hn
        rw [ih]
        simp [hxname]
      · have hxname : ¬x = name := by rw [← hn]; intro hh; exact hx hh.symm
        simp [hx, hxname, ih]
    · rw [if_neg hn]
      simp only [lookupFile]
      by_cases hx : n = x
      · have hxname : ¬x = name := by intro hh; apply hn; rw [hx, hh]
        simp [hx, hxname, lookupFile]
      · simp [hx, ih]

theorem sweep_lookup_none (x : String) :
    ∀ (lru : List (Nat × String)) (fs : DirState) (numBytes acc : Nat)
      (b : Bool) (fs1 : DirState),
      lookupFile fs x = none → sweep fs lru numBytes acc = .ok (b, fs1) →
      lookupFile fs1 x = none := by
  intro lru
  induction lru with
  | nil =>
    intro fs numBytes acc b fs1 hx hs
    simp only [sweep, Except.ok.injEq, Prod.mk.injEq] at hs
    rw [← hs.2]
    exact hx
  | cons e rest ih =>
    intro fs numBytes acc b fs1 hx hs
    obtain ⟨t, name⟩ := e
    simp only [sweep] at hs
    cases hf : lookupFile fs name with
    | none => rw [hf] at hs; cases hs
    | some f =>
      rw [hf] at hs
      simp only at hs
      have hx1 : lookupFile (removeFile fs name) x = none := by
        rw [lookupFile_removeFile]
        by_cases hxn : x = name
        · simp [hxn]
        · simp [hxn, hx]
      by_cases hc : numBytes ≤ acc + f.content.length
      · rw [if_pos hc] at hs
        simp only [Except.ok.injEq, Prod.mk.injEq] at hs
        rw [← hs.2]
        exact hx1
      · rw [if_neg hc] at hs
        exact ih _ _ _ _ _ hx1 hs

theorem make_space_lookup_none (conf : Configuration) (fs : DirState)
    (numBytes : Nat) (x : String) (b : Bool) (fs1 : DirState)
    (hx : lookupFile fs x = none)
    (h : make_space conf fs numBytes = .ok (b, fs1)) :
    lookupFile fs1 x = none := by
  unfold make_space at h
  by_cases hb : conf.cache_size_limit_in_bytes < numBytes
  · rw [if_pos hb] at h
    simp only [Except.ok.injEq, Prod.mk.injEq] at h
    rw [← h.2]
    exact hx
  · rw [if_neg hb] at h
    exact sweep_lookup_none x _ _ _ _ _ _ hx h

theorem append_tmp_ne_self (s : String) : s ++ ".tmp" ≠ s := by
  intro h
  have hl := congrArg String.length h
  rw [String.length_append] at hl
  have h4 : (".tmp" : String).length = 4 := rfl
  rw [h4] at hl
  omega

theorem valid_md5sum_length (s : String) (h : is_valid_md5sum s = true) :
    s.length = 32 := by
  unfold is_valid_md5sum at h
  have h1 := ((Bool.and_eq_true _ _).mp h).1
  exact eq_of_beq h1

/-! ## Claim theorems -/

/-- C1: the claim says two distinct committed entries with equal
last-access timestamps both survive the eviction enumeration.  The code
keys its `BTreeMap` by the timestamp alone, so the second insertion
overwrites the first: on the failing input of two entries `a` and `b`
that both have atime 5, `get_least_recently_used` returns a single
element and entry `a` has been silently merged away, contradicting the
claim (and the spec's own requirement, which the spec flags as broken by
exactly this implementation). -/
theorem c1_collision_collapses_enumeration :
    get_least_recently_used
        [("a", ⟨[1], 5, 0⟩), ("b", ⟨[2], 5, 0⟩)] = [(5, "b")] := by
  rfl

/-- C2: the claim says that whenever the total occupied bytes are at
least `n ≤ budget`, `make_space n` returns `true` having deleted an
oldest-first set of entries of total size at least `n`.  On the failing
input — budget 2, two 1-byte entries `a` and `b` both with atime 1,
`n = 2` — the timestamp-keyed `BTreeMap` collapses the two entries, the
sweep only ever sees (and deletes) `b`, frees 1 byte, and returns
`false` with `a` still present, contradicting the claim. -/
theorem c2_collision_breaks_eviction :
    make_space ⟨2, "r"⟩ [("a", ⟨[7], 1, 0⟩), ("b", ⟨[8], 1, 0⟩)] 2
      = .ok (false, [("a", ⟨[7], 1, 0⟩)]) := by
  rfl

/-- C3: for every `n` strictly greater than the configured byte budget
and every cache state, `make_space n` returns `false` with the directory
unchanged; the result does not depend on the directory contents at all
(the early return precedes the directory enumeration). -/
theorem c3_make_space_over_budget (conf : Configuration) (fs : DirState)
    (numBytes : Nat) (h : conf.cache_size_limit_in_bytes < numBytes) :
    make_space conf fs numBytes = .ok (false, fs) := by
  simp [make_space, h]

/-- Witness for C3 at budget 2, one entry, request 3. -/
theorem c3_witness :
    make_space ⟨2, "r"⟩ [("a", ⟨[7], 3, 0⟩)] 3
      = .ok (false, [("a", ⟨[7], 3, 0⟩)]) :=
  c3_make_space_over_budget ⟨2, "r"⟩ [("a", ⟨[7], 3, 0⟩)] 3 (by decide)

/-- C5: for every existing entry, `touch` sets the entry's access time
to the current wall-clock seconds `now` and leaves its modification time
(and content) unchanged; when the file does not exist, the timestamp
read fails and `touch` fails with `TouchError`. -/
theorem c5_touch_sets_atime_only (fs : DirState) (name : String)
    (now : Nat) :
    (∀ f, lookupFile fs name = some f →
      touch fs name now = .ok (setFile fs name ⟨f.content, now, f.mtime⟩)) ∧
    (lookupFile fs name = none →
      touch fs name now = .error .TouchError) := by
  constructor
  · intro f hf
    simp [touch, set_file_atime, hf]
  · intro hf
    simp [touch, set_file_atime, hf]

/-- Witness for C5: touching the present entry `k` at time 10 moves its
atime from 5 to 10 and keeps mtime 7; touching the absent `x` fails. -/
theorem c5_witness :
    touch [("k", ⟨[3], 5, 7⟩)] "k" 10 = .ok [("k", ⟨[3], 10, 7⟩)] ∧
    touch [("k", ⟨[3], 5, 7⟩)] "x" 10 = .error .TouchError :=
  ⟨(c5_touch_sets_atime_only [("k", ⟨[3], 5, 7⟩)] "k" 10).1 ⟨[3], 5, 7⟩ rfl,
   (c5_touch_sets_atime_only [("k", ⟨[3], 5, 7⟩)] "x" 10).2 rfl⟩

/-- C7 counterexample: the claim says `make_space 0` returns `true`
without deleting anything on every cache state including the empty one.
On the empty directory the sweep loop never runs and the code returns
`false`; on a one-entry directory it returns `true` but only after
deleting that entry (the freed-bytes check runs after each deletion, not
before the sweep). -/
theorem c7_counterexample :
    make_space ⟨2, "r"⟩ [] 0 = .ok (false, []) ∧
    make_space ⟨2, "r"⟩ [("a", ⟨[7], 1, 0⟩)] 0 = .ok (true, []) :=
  ⟨rfl, rfl⟩

/-- C7 amended: `make_space 0` returns `false` and deletes nothing when
the eviction enumeration is empty (no entries besides the lock marker);
when the enumeration is nonempty it deletes exactly the first
(oldest-atime) enumerated entry and returns `true`, because the
accumulated-bytes test only runs after a deletion. -/
theorem c7_make_space_zero (conf : Configuration) (fs : DirState) :
    (get_least_recently_used fs = [] →
      make_space conf fs 0 = .ok (false, fs)) ∧
    (∀ t name rest f, get_least_recently_used fs = (t, name) :: rest →
      lookupFile fs name = some f →
      make_space conf fs 0 = .ok (true, removeFile fs name)) := by
  constructor
  · intro h
    simp [make_space, h, sweep]
  · intro t name rest f h hf
    simp [make_space, h, sweep, hf]

/-- Witness for C7 amended: the empty directory keeps `false`; a
directory with the single 1-byte entry `a` yields `true` and deletes
`a`. -/
theorem c7_witness :
    make_space ⟨2, "r"⟩ [] 0 = .ok (false, []) ∧
    make_space ⟨2, "r"⟩ [("a", ⟨[7], 1, 0⟩)] 0
      = .ok (true, removeFile [("a", ⟨[7], 1, 0⟩)] "a") :=
  ⟨(c7_make_space_zero ⟨2, "r"⟩ []).1 rfl,
   (c7_make_space_zero ⟨2, "r"⟩ [("a", ⟨[7], 1, 0⟩)]).2 1 "a" [] ⟨[7], 1, 0⟩
     rfl rfl⟩

/-- C6 counterexample: the claim says a failure of the byte-copy step
leaves the cache entry untouched, content and both timestamps included.
`copy` runs `touch` before `fs::copy`, so on the failing input — entry
`k` with atime 5 and mtime 7, wall clock 10, unwritable destination —
the copy fails with `CopyError` but the entry's access time has already
been changed from 5 to 10. -/
theorem c6_counterexample :
    (copy [("k", ⟨[3], 5, 7⟩)] "k" 10 false).1
        = .error CacheError.CopyError ∧
    (copy [("k", ⟨[3], 5, 7⟩)] "k" 10 false).2
        ≠ [("k", ⟨[3], 5, 7⟩)] ∧
    (copy [("k", ⟨[3], 5, 7⟩)] "k" 10 false).2
        = [("k", ⟨[3], 10, 7⟩)] :=
  ⟨rfl, by decide, rfl⟩

/-- C6 amended: for every key not present in the cache root, `contains`
is `false` and `copy` fails (with the touch-error kind, since the touch
runs first and already fails, leaving the directory unchanged); for a
present key, a failure of the byte-copy step surfaces as the distinct
copy-error kind and leaves the entry's content and modification time
unchanged, while its access time has already been set to the time of
the call by the preceding successful touch. -/
theorem c6_copy_error_paths (fs : DirState) (key : String) (now : Nat) :
    CacheError.TouchError ≠ CacheError.CopyError ∧
    (lookupFile fs key = none →
      contains fs key = false ∧
      (copy fs key now true).1 = .error CacheError.TouchError ∧
      (copy fs key now true).2 = fs) ∧
    (∀ f, lookupFile fs key = some f →
      (copy fs key now false).1 = .error CacheError.CopyError ∧
      (copy fs key now false).2
        = setFile fs key ⟨f.content, now, f.mtime⟩) := by
  refine ⟨by decide, ?_, ?_⟩
  · intro h
    refine ⟨?_, ?_, ?_⟩
    · simp [contains, h]
    · simp [copy, touch, set_file_atime, h]
    · simp [copy, touch, set_file_atime, h]
  · intro f hf
    constructor
    · simp [copy, touch, set_file_atime, hf, lookupFile_setFile]
    · simp [copy, touch, set_file_atime, hf, lookupFile_setFile]

/-- Witness for C6 amended: `x` is absent (contains is false, copy fails
with the touch-error kind); the byte-copy of the present `k` fails with
the copy-error kind and the post-state keeps content `[3]` and mtime 7
with atime refreshed to 10. -/
theorem c6_witness :
    (contains [("k", ⟨[3], 5, 7⟩)] "x" = false ∧
      (copy [("k", ⟨[3], 5, 7⟩)] "x" 10 true).1
          = .error CacheError.TouchError ∧
      (copy [("k", ⟨[3], 5, 7⟩)] "x" 10 true).2 = [("k", ⟨[3], 5, 7⟩)]) ∧
    (copy [("k", ⟨[3], 5, 7⟩)] "k" 10 false).1
        = .error CacheError.CopyError ∧
    (copy [("k", ⟨[3], 5, 7⟩)] "k" 10 false).2
        = setFile [("k", ⟨[3], 5, 7⟩)] "k" ⟨[3], 10, 7⟩ :=
  ⟨(c6_copy_error_paths [("k", ⟨[3], 5, 7⟩)] "x" 10).2.1 rfl,
   (c6_copy_error_paths [("k", ⟨[3], 5, 7⟩)] "k" 10).2.2 ⟨[3], 5, 7⟩ rfl⟩

/-- C9: `path` and `temporary_path` are pure functions of the root and
the key (`root/key` and `root/key.tmp`), and for every pair of valid
cache keys (32 hex characters, the shape validated at the system
boundary) the temporary path of one key differs from the permanent path
of any key — a valid key is 32 characters while a temporary name is 36 —
and from the lock marker path `root/lock`. -/
theorem c9_temporary_paths_distinct (conf : Configuration)
    (k1 k2 : String) (h1 : is_valid_md5sum k1 = true)
    (h2 : is_valid_md5sum k2 = true) :
    temporary_path conf k1 = ⟨conf.cache_path, k1 ++ ".tmp"⟩ ∧
    path conf k2 = ⟨conf.cache_path, k2⟩ ∧
    temporary_path conf k1 ≠ path conf k2 ∧
    temporary_path conf k1 ≠ path conf "lock" := by
  refine ⟨rfl, rfl, ?_, ?_⟩
  · intro h
    have hname : k1 ++ ".tmp" = k2 := congrArg CachePath.name h
    have hl := congrArg String.length hname
    rw [String.length_append] at hl
    have h4 : (".tmp" : String).length = 4 := rfl
    rw [h4, valid_md5sum_length k1 h1, valid_md5sum_length k2 h2] at hl
    omega
  · intro h
    have hname : k1 ++ ".tmp" = "lock" := congrArg CachePath.name h
    have hl := congrArg String.length hname
    rw [String.length_append] at hl
    have h4 : (".tmp" : String).length = 4 := rfl
    have hlock : ("lock" : String).length = 4 := rfl
    rw [h4, hlock, valid_md5sum_length k1 h1] at hl
    omega

/-- Witness for C9 at two concrete valid md5 keys. -/
theorem c9_witness :
    temporary_path ⟨2, "r"⟩ "d41d8cd98f00b204e9800998ecf8427e"
        ≠ path ⟨2, "r"⟩ "c4ca4238a0b923820dcc509a6f75849b" ∧
    temporary_path ⟨2, "r"⟩ "d41d8cd98f00b204e9800998ecf8427e"
        ≠ path ⟨2, "r"⟩ "lock" :=
  ⟨(c9_temporary_paths_distinct ⟨2, "r"⟩ _ _ (by decide) (by decide)).2.2.1,
   (c9_temporary_paths_distinct ⟨2, "r"⟩ "d41d8cd98f00b204e9800998ecf8427e"
     "c4ca4238a0b923820dcc509a6f75849b" (by decide) (by decide)).2.2.2⟩

/-- C10: after a successful open, the lock marker is reachable through
the public key interface: `path "lock"` is exactly the lock marker path
`root/lock`, `contains "lock"` is `true`, and `copy "lock" dst` succeeds
and copies the lock marker's bytes out as if it were a cache entry. -/
theorem c10_lock_reachable_as_key (conf : Configuration)
    (fs fs1 : DirState) (now : Nat)
    (hopen : open_with_configuration conf fs now = .ok fs1) :
    path conf "lock" = ⟨conf.cache_path, "lock"⟩ ∧
    contains fs1 "lock" = true ∧
    (copy fs1 "lock" now true).1 = .ok (lockMarker now).content := by
  unfold open_with_configuration at hopen
  by_cases h : (lookupFile fs "lock").isSome
  · rw [if_pos h] at hopen
    cases hopen
  · rw [if_neg h] at hopen
    have hfs1 : fs1 = setFile fs "lock" (lockMarker now) := by
      cases hopen
      rfl
    have hlook : lookupFile fs1 "lock" = some (lockMarker now) := by
      rw [hfs1, lookupFile_setFile]
      simp
    refine ⟨rfl, ?_, ?_⟩
    · simp [contains, hlook]
    · simp [copy, touch, set_file_atime, hlook, lookupFile_setFile,
        lockMarker]

/-- Witness for C10: opening a fresh empty root at time 9 and reading
the key `lock` back out. -/
theorem c10_witness :
    path ⟨2, "r"⟩ "lock" = ⟨"r", "lock"⟩ ∧
    contains [("lock", ⟨[], 9, 9⟩)] "lock" = true ∧
    (copy [("lock", ⟨[], 9, 9⟩)] "lock" 9 true).1
        = .ok (lockMarker 9).content :=
  c10_lock_reachable_as_key ⟨2, "r"⟩ [] [("lock", ⟨[], 9, 9⟩)] 9 rfl

/-- C4: admission is atomic under injected failure.  On the admission
path (key present remotely, cache miss, `make_space` returned `true`):
if the fetch into the temporary path fails, the original failure is the
one propagated (a failure of the best-effort removal of the temporary
file is not), no entry appears under the permanent key, and when the
removal succeeds the temporary file is gone too; if the final rename
fails, the error surfaces as the distinct move-error kind, the
temporary file still exists with the full downloaded body, and the
permanent key is still absent. -/
theorem c4_admission_atomic (remote : Remote) (conf : Configuration)
    (fs fs1 fs2 : DirState) (now : Nat) (plan : Plan) (md5 : String)
    (hmd5 : remote.head.md5sum = some md5)
    (hopen : open_with_configuration conf fs now = .ok fs1)
    (hmiss : lookupFile fs1 md5 = none)
    (hms : make_space conf fs1 remote.head.content_length
      = .ok (true, fs2)) :
    (plan.fetchToTmpFails = true →
      (download remote conf fs now plan).result
          = .error S3Error.CommandFailed ∧
      lookupFile (download remote conf fs now plan).fs md5 = none ∧
      (plan.removeTmpFails = false →
        lookupFile (download remote conf fs now plan).fs (md5 ++ ".tmp")
          = none)) ∧
    (plan.fetchToTmpFails = false → plan.renameFails = true →
      (download remote conf fs now plan).result = .error S3Error.MoveError ∧
      lookupFile (download remote conf fs now plan).fs (md5 ++ ".tmp")
          = some ⟨remote.body, now, now⟩ ∧
      lookupFile (download remote conf fs now plan).fs md5 = none) := by
  have hcont : contains fs1 md5 = false := by simp [contains, hmiss]
  have hmiss2 : lookupFile fs2 md5 = none :=
    make_space_lookup_none conf fs1 remote.head.content_length md5 true fs2
      hmiss hms
  have hne : ¬md5 = md5 ++ ".tmp" := fun h => append_tmp_ne_self md5 h.symm
  constructor
  · intro hfetch
    have hdl : download remote conf fs now plan =
        ⟨.error S3Error.CommandFailed,
          if plan.removeTmpFails = true
          then setFile fs2 (md5 ++ ".tmp") ⟨[], now, now⟩
          else removeFile (setFile fs2 (md5 ++ ".tmp") ⟨[], now, now⟩)
            (md5 ++ ".tmp"),
          none⟩ := by
      simp [download, hmd5, hopen, hcont, hms, hfetch]
    rw [hdl]
    refine ⟨rfl, ?_, ?_⟩
    · by_cases hrm : plan.removeTmpFails = true
      · simp [hrm, lookupFile_setFile, hne, hmiss2]
      · simp only [eq_false_of_ne_true hrm, if_false]
        simp [lookupFile_removeFile, lookupFile_setFile, hne, hmiss2]
    · intro hrm
      simp [hrm, lookupFile_removeFile]
  · intro hfetch hrename
    have hdl : download remote conf fs now plan =
        ⟨.error S3Error.MoveError,
          setFile fs2 (md5 ++ ".tmp") ⟨remote.body, now, now⟩,
          none⟩ := by
      simp [download, hmd5, hopen, hcont, hms, hfetch, hrename]
    rw [hdl]
    refine ⟨rfl, ?_, ?_⟩
    · simp [lookupFile_setFile]
    · simp [lookupFile_setFile, hne, hmiss2]

/-- Witness for C4: budget 10, one stale 3-byte entry, remote object
`abc` of 3 bytes fetched at time 50; first with a failing fetch into
the temporary path (and a succeeding cleanup), then with a failing
rename. -/
theorem c4_witness :
    ((download ⟨⟨3, some "abc"⟩, [1, 2, 3]⟩ ⟨10, "r"⟩
        [("old", ⟨[9, 9, 9], 1, 1⟩)] 50 ⟨true, false, false⟩).result
          = .error S3Error.CommandFailed ∧
      lookupFile (download ⟨⟨3, some "abc"⟩, [1, 2, 3]⟩ ⟨10, "r"⟩
        [("old", ⟨[9, 9, 9], 1, 1⟩)] 50 ⟨true, false, false⟩).fs "abc"
          = none ∧
      lookupFile (download ⟨⟨3, some "abc"⟩, [1, 2, 3]⟩ ⟨10, "r"⟩
        [("old", ⟨[9, 9, 9], 1, 1⟩)] 50 ⟨true, false, false⟩).fs
          ("abc" ++ ".tmp") = none) ∧
    ((download ⟨⟨3, some "abc"⟩, [1, 2, 3]⟩ ⟨10, "r"⟩
        [("old", ⟨[9, 9, 9], 1, 1⟩)] 50 ⟨false, false, true⟩).result
          = .error S3Error.MoveError ∧
      lookupFile (download ⟨⟨3, some "abc"⟩, [1, 2, 3]⟩ ⟨10, "r"⟩
        [("old", ⟨[9, 9, 9], 1, 1⟩)] 50 ⟨false, false, true⟩).fs
          ("abc" ++ ".tmp") = some ⟨[1, 2, 3], 50, 50⟩ ∧
      lookupFile (download ⟨⟨3, some "abc"⟩, [1, 2, 3]⟩ ⟨10, "r"⟩
        [("old", ⟨[9, 9, 9], 1, 1⟩)] 50 ⟨false, false, true⟩).fs "abc"
          = none) :=
  ⟨(fun h => ⟨h.1, h.2.1, h.2.2 rfl⟩)
    ((c4_admission_atomic ⟨⟨3, some "abc"⟩, [1, 2, 3]⟩ ⟨10, "r"⟩
      [("old", ⟨[9, 9, 9], 1, 1⟩)]
      [("old", ⟨[9, 9, 9], 1, 1⟩), ("lock", ⟨[], 50, 50⟩)]
      [("lock", ⟨[], 50, 50⟩)] 50 ⟨true, false, false⟩ "abc"
      rfl rfl rfl rfl).1 rfl),
   (c4_admission_atomic ⟨⟨3, some "abc"⟩, [1, 2, 3]⟩ ⟨10, "r"⟩
      [("old", ⟨[9, 9, 9], 1, 1⟩)]
      [("old", ⟨[9, 9, 9], 1, 1⟩), ("lock", ⟨[], 50, 50⟩)]
      [("lock", ⟨[], 50, 50⟩)] 50 ⟨false, false, true⟩ "abc"
      rfl rfl rfl rfl).2 rfl rfl⟩

/-- C8: when the remote object carries no md5sum key, or `make_space`
reports the object cannot fit, `download` fetches directly to the
caller's requested destination and creates no temporary or permanent
cache entry for that key (in the no-checksum case the cache directory
is not even opened and is left entirely unchanged). -/
theorem c8_bypass_direct_fetch (remote : Remote) (conf : Configuration)
    (fs : DirState) (now : Nat) (plan : Plan) :
    (remote.head.md5sum = none →
      download remote conf fs now plan = ⟨.ok (), fs, some remote.body⟩) ∧
    (∀ md5 fs1 fs2, remote.head.md5sum = some md5 →
      open_with_configuration conf fs now = .ok fs1 →
      lookupFile fs1 md5 = none →
      lookupFile fs1 (md5 ++ ".tmp") = none →
      make_space conf fs1 remote.head.content_length = .ok (false, fs2) →
      (download remote conf fs now plan).result = .ok () ∧
      (download remote conf fs now plan).dest = some remote.body ∧
      lookupFile (download remote conf fs now plan).fs md5 = none ∧
      lookupFile (download remote conf fs now plan).fs (md5 ++ ".tmp")
        = none) := by
  constructor
  · intro h
    simp [download, h]
  · intro md5 fs1 fs2 hmd5 hopen hmiss htmp hms
    have hcont : contains fs1 md5 = false := by simp [contains, hmiss]
    have hdl : download remote conf fs now plan =
        ⟨.ok (), fs2, some remote.body⟩ := by
      simp [download, hmd5, hopen, hcont, hms]
    rw [hdl]
    exact ⟨rfl, rfl,
      make_space_lookup_none conf fs1 remote.head.content_length md5 false
        fs2 hmiss hms,
      make_space_lookup_none conf fs1 remote.head.content_length
        (md5 ++ ".tmp") false fs2 htmp hms⟩

/-- Witness for C8: a checksum-less remote object leaves the singleton
cache untouched; a 5-byte object against an empty cache (make_space
exhausts nothing and reports `false`) is fetched directly with no entry
created for `abc`. -/
theorem c8_witness :
    download ⟨⟨3, none⟩, [1, 2, 3]⟩ ⟨10, "r"⟩ [("old", ⟨[9, 9, 9], 1, 1⟩)]
        50 ⟨false, false, false⟩
      = ⟨.ok (), [("old", ⟨[9, 9, 9], 1, 1⟩)], some [1, 2, 3]⟩ ∧
    (download ⟨⟨5, some "abc"⟩, [1, 2, 3]⟩ ⟨10, "r"⟩ [] 50
        ⟨false, false, false⟩).result = .ok () ∧
    (download ⟨⟨5, some "abc"⟩, [1, 2, 3]⟩ ⟨10, "r"⟩ [] 50
        ⟨false, false, false⟩).dest = some [1, 2, 3] ∧
    lookupFile (download ⟨⟨5, some "abc"⟩, [1, 2, 3]⟩ ⟨10, "r"⟩ [] 50
        ⟨false, false, false⟩).fs "abc" = none ∧
    lookupFile (download ⟨⟨5, some "abc"⟩, [1, 2, 3]⟩ ⟨10, "r"⟩ [] 50
        ⟨false, false, false⟩).fs ("abc" ++ ".tmp") = none :=
  ⟨(c8_bypass_direct_fetch ⟨⟨3, none⟩, [1, 2, 3]⟩ ⟨10, "r"⟩
      [("old", ⟨[9, 9, 9], 1, 1⟩)] 50 ⟨false, false, false⟩).1 rfl,
   (c8_bypass_direct_fetch ⟨⟨5, some "abc"⟩, [1, 2, 3]⟩ ⟨10, "r"⟩ [] 50
      ⟨false, false, false⟩).2 "abc" [("lock", ⟨[], 50, 50⟩)]
      [("lock", ⟨[], 50, 50⟩)] rfl rfl rfl rfl rfl⟩

end Horst3
